import Mathlib

/-!
Shallow embedding of the authentication subsystem of the contacts-management
backend: token issuance (`create_access_token`, `create_refresh_token`,
`create_email_token`), token verification (`decode_refresh_token`,
`get_email_from_token`, and the verification phase of `get_current_user`),
the cache-backed identity resolution of `get_current_user`, and the user
repository functions `get_user_by_email` and `confirmed_email`.
Machine times are modelled as integer seconds; JWTs are modelled as their
claims bundle tagged with the key used to sign them.
-/

deriving instance DecidableEq for Except

namespace AuthApp

/-- A JSON claim value as it matters here: a string or JSON null.
Distinguishing a claim that is present-but-null from an absent claim
is needed because Python's `payload["sub"]` raises KeyError only when
the key is absent. -/
inductive JVal where
  | str (s : String)
  | null
deriving DecidableEq, Repr

/-- The claims bundle of a JWT: `sub` (absent, null, or a string),
`scope` (absent or a string), issued-at and expiry as integer seconds. -/
structure Claims where
  sub : Option JVal
  scope : Option String
  iat : Int
  exp : Int
deriving DecidableEq, Repr

/-- A signed token: its claims plus the key it was signed with.
`jwt.encode(payload, key, alg)` is modelled as tagging the payload with
the key; `jwt.decode` checks the tag against the expected key. -/
structure Token where
  claims : Claims
  signKey : String
deriving DecidableEq, Repr

/-- The process-wide signing secret (`settings.secret_key`), opaque here. -/
def SECRET_KEY : String := "process-secret"

/-- Errors raised by `jose.jwt.decode`: bad signature/structure, or an
`exp` claim in the past.  Both are subclasses of `JWTError` in jose. -/
inductive JWTError where
  | invalidSignature
  | expiredSignature
deriving DecidableEq, Repr

/-- `jose.jwt.decode(token, key, algorithms)`: rejects a wrong signature,
then rejects an expired token (jose treats `exp < now` as expired),
otherwise returns the claims. -/
def jwtDecode (tok : Token) (key : String) (now : Int) : Except JWTError Claims :=
  if tok.signKey ≠ key then .error .invalidSignature
  else if tok.claims.exp < now then .error .expiredSignature
  else .ok tok.claims

/-- An HTTP error response carried by a raised `HTTPException`. -/
structure HTTPErr where
  status_code : Nat
  detail : String
deriving DecidableEq, Repr

/-- A Python exception escaping one of the embedded functions:
an `HTTPException`, a `KeyError` from a dict subscript on a missing key,
or an `AttributeError` from dereferencing `None`. -/
inductive PyError where
  | http (e : HTTPErr)
  | keyError (k : String)
  | attributeError (m : String)
deriving DecidableEq, Repr

/-- The `data` dict passed to the token creators: the caller-supplied part
of the payload (a subject and possibly a scope, before the creator
overwrites fields). -/
structure TokenData where
  sub : Option JVal
  scope : Option String
deriving DecidableEq, Repr

/-- `Auth.create_access_token(data, expires_delta)` at time `now`:
copies `data`, sets `exp` to `now + expires_delta` seconds when
`expires_delta` is truthy (Python: not `None` and not `0`), else to
`now + 15` minutes, and overwrites `iat` and `scope = "access_token"`. -/
def create_access_token (data : TokenData) (expires_delta : Option Int) (now : Int) : Token :=
  let expire : Int :=
    match expires_delta with
    | some d => if d ≠ 0 then now + d else now + 15 * 60
    | none => now + 15 * 60
  { claims := { sub := data.sub, scope := some "access_token", iat := now, exp := expire },
    signKey := SECRET_KEY }

/-- `Auth.create_refresh_token(data, expires_delta)` at time `now`:
same shape as the access creator, default expiry `now + 7` days,
scope overwritten to `"refresh_token"`. -/
def create_refresh_token (data : TokenData) (expires_delta : Option Int) (now : Int) : Token :=
  let expire : Int :=
    match expires_delta with
    | some d => if d ≠ 0 then now + d else now + 7 * 86400
    | none => now + 7 * 86400
  { claims := { sub := data.sub, scope := some "refresh_token", iat := now, exp := expire },
    signKey := SECRET_KEY }

/-- `Auth.create_email_token(data)` at time `now`: copies `data`, sets
`iat` and `exp = now + 7` days, and does NOT touch the scope field:
the token's scope is whatever `data` carried (none, for the callers
that pass only a subject). -/
def create_email_token (data : TokenData) (now : Int) : Token :=
  { claims := { sub := data.sub, scope := data.scope, iat := now, exp := now + 7 * 86400 },
    signKey := SECRET_KEY }

/-- The `credentials_exception` built in `get_current_user`. -/
def credentials_exception : HTTPErr :=
  { status_code := 401, detail := "Could not validate credentials" }

/-- `Auth.decode_refresh_token(refresh_token)` at time `now`: decode
(JWTError is caught and re-raised as the generic 401), then read
`payload["scope"]` (KeyError if absent), accept scope `"refresh_token"`
returning `payload["sub"]` (KeyError if absent), and raise
401 "Invalid scope for token" on any other scope. -/
def decode_refresh_token (refresh_token : Token) (now : Int) : Except PyError JVal :=
  match jwtDecode refresh_token SECRET_KEY now with
  | .error _ => .error (.http { status_code := 401, detail := "Could not validate credentials" })
  | .ok payload =>
    match payload.scope with
    | none => .error (.keyError "scope")
    | some sc =>
      if sc = "refresh_token" then
        match payload.sub with
        | none => .error (.keyError "sub")
        | some email => .ok email
      else .error (.http { status_code := 401, detail := "Invalid scope for token" })

/-- `Auth.get_email_from_token(token)` at time `now`: decode (JWTError is
caught and re-raised as 422 "Invalid token for email verification"),
then return `payload["sub"]` (KeyError if absent).  No scope check. -/
def get_email_from_token (token : Token) (now : Int) : Except PyError JVal :=
  match jwtDecode token SECRET_KEY now with
  | .error _ =>
      .error (.http { status_code := 422, detail := "Invalid token for email verification" })
  | .ok payload =>
    match payload.sub with
    | none => .error (.keyError "sub")
    | some v => .ok v

/-- Modelled from the spec: the Identity record (spec section 3), since the
`User` model's module is not under src (only its tests and callers are):
id, unique email, confirmed flag and the single-slot refresh-token value
are the fields the auth subsystem touches. -/
structure User where
  id : Nat
  email : String
  confirmed : Bool
  refresh_token : Option String
deriving DecidableEq, Repr

/-- One entry of the external key-value cache: key, pickled user value,
and the remaining TTL if one was set (`none` right after a plain SET). -/
structure CacheEntry where
  key : String
  value : User
  ttl : Option Int
deriving DecidableEq, Repr

/-- The shared state the gate touches: the key-value cache and the
persistence store (the users table as a list in query order). -/
structure AuthState where
  cache : List CacheEntry
  store : List User
deriving DecidableEq, Repr

/-- Redis `GET`: the value stored at the key, or `none` on a miss. -/
def redisGet : List CacheEntry → String → Option User
  | [], _ => none
  | e :: rest, k => if e.key = k then some e.value else redisGet rest k

/-- Redis `SET`: overwrite the value at the key (clearing any TTL, as
redis SET does), or append a fresh entry when the key is absent. -/
def redisSet : List CacheEntry → String → User → List CacheEntry
  | [], k, v => [{ key := k, value := v, ttl := none }]
  | e :: rest, k, v =>
      if e.key = k then { key := k, value := v, ttl := none } :: rest
      else e :: redisSet rest k v

/-- Redis `EXPIRE`: set the TTL of the entry at the key, if present. -/
def redisExpire : List CacheEntry → String → Int → List CacheEntry
  | [], _, _ => []
  | e :: rest, k, t =>
      if e.key = k then { e with ttl := some t } :: rest
      else e :: redisExpire rest k t

/-- The TTL currently attached to a cached key (`none` when the key is
absent; `some none` when present with no TTL). -/
def redisTTL : List CacheEntry → String → Option (Option Int)
  | [], _ => none
  | e :: rest, k => if e.key = k then some e.ttl else redisTTL rest k

/-- `repository.users.get_user_by_email(email, db)`:
`db.query(User).filter(User.email == email).first()`. -/
def get_user_by_email (email : String) (store : List User) : Option User :=
  store.find? (fun u => u.email == email)

/-- The token-verification phase of `Auth.get_current_user` (the `try`
block): decode (JWTError caught as the generic 401), read
`payload["scope"]` (KeyError if absent), require `"access_token"`
(else the generic 401), read `payload["sub"]` (KeyError if absent),
and reject a null subject with the generic 401. -/
def gateVerify (token : Token) (now : Int) : Except PyError String :=
  match jwtDecode token SECRET_KEY now with
  | .error _ => .error (.http credentials_exception)
  | .ok payload =>
    match payload.scope with
    | none => .error (.keyError "scope")
    | some sc =>
      if sc = "access_token" then
        match payload.sub with
        | none => .error (.keyError "sub")
        | some .null => .error (.http credentials_exception)
        | some (.str email) => .ok email
      else .error (.http credentials_exception)

/-- `Auth.get_current_user(token, db)` at time `now` over state `st`:
verify the token, then `r.get("user:" + email)`; on a hit return the
unpickled user; on a miss query the store (counted in the third
component), raise the generic 401 when absent, else `r.set` then
`r.expire(..., 900)` and return the user.  Returns the outcome, the
final state, and the number of store lookups performed. -/
def get_current_user (token : Token) (now : Int) (st : AuthState) :
    Except PyError User × AuthState × Nat :=
  match gateVerify token now with
  | .error e => (.error e, st, 0)
  | .ok email =>
    match redisGet st.cache ("user:" ++ email) with
    | some cached => (.ok cached, st, 0)
    | none =>
      match get_user_by_email email st.store with
      | none => (.error (.http credentials_exception), st, 1)
      | some user =>
        let c1 := redisSet st.cache ("user:" ++ email) user
        let c2 := redisExpire c1 ("user:" ++ email) 900
        (.ok user, { st with cache := c2 }, 1)

/-- `Auth.decode_refresh_token` run against the ambient shared state
(the redis client and the db session that are in scope in the class):
the body performs no cache or store operation, so the state threads
through untouched and the outcome is the pure computation. -/
def decode_refresh_token_run (refresh_token : Token) (now : Int) (st : AuthState) :
    Except PyError JVal × AuthState :=
  (decode_refresh_token refresh_token now, st)

/-- Setting `confirmed = True` on the first user matching the email and
committing, as the mutation of the ORM object performs. -/
def setConfirmedFirst : List User → String → List User
  | [], _ => []
  | u :: rest, email =>
      if u.email == email then { u with confirmed := true } :: rest
      else u :: setConfirmedFirst rest email

/-- `repository.users.confirmed_email(email, db)`: look the user up by
email, then execute `user.confirmed = True` — which, when the lookup
returned `None`, is a dereference of `None` raising AttributeError —
and commit. -/
def confirmed_email (email : String) (store : List User) : Except PyError (List User) :=
  match get_user_by_email email store with
  | none => .error (.attributeError "NoneType object has no attribute confirmed")
  | some _ => .ok (setConfirmedFirst store email)

/-- Whether an Except value is a success. -/
def isOkE {ε α : Type} : Except ε α → Bool
  | .ok _ => true
  | .error _ => false

/-! Helper lemmas about the cache operations. -/

lemma redisGet_expire (c : List CacheEntry) (K : String) (t : Int) (k : String) :
    redisGet (redisExpire c K t) k = redisGet c k := by
  induction c with
  | nil => rfl
  | cons e rest ih =>
    simp only [redisExpire]
    split
    · simp [redisGet]
    · simp only [redisGet, ih]

lemma redisGet_set_self (c : List CacheEntry) (K : String) (u : User) :
    redisGet (redisSet c K u) K = some u := by
  induction c with
  | nil => simp [redisSet, redisGet]
  | cons e rest ih =>
    simp only [redisSet]
    split
    · simp [redisGet]
    · simp only [redisGet]
      split
      · rename_i h1 h2
        exact absurd h2 h1
      · exact ih

lemma redisGet_set_ne (c : List CacheEntry) (K : String) (u : User) (k : String)
    (h : k ≠ K) : redisGet (redisSet c K u) k = redisGet c k := by
  induction c with
  | nil => simp [redisSet, redisGet, h, Ne.symm h]
  | cons e rest ih =>
    simp only [redisSet]
    split
    · rename_i he
      simp [redisGet, Ne.symm h, he]
    · simp only [redisGet, ih]

lemma redisTTL_expire_set_self (c : List CacheEntry) (K : String) (u : User) (t : Int) :
    redisTTL (redisExpire (redisSet c K u) K t) K = some (some t) := by
  induction c with
  | nil => simp [redisSet, redisExpire, redisTTL]
  | cons e rest ih =>
    simp only [redisSet]
    split
    · simp [redisExpire, redisTTL]
    · rename_i h1
      simp only [redisExpire, redisTTL, if_neg h1, ih]

/-- The cache key freshly populated by the gate holds the stored user. -/
lemma redisGet_after_populate (c : List CacheEntry) (K : String) (u : User) (t : Int) :
    redisGet (redisExpire (redisSet c K u) K t) K = some u := by
  rw [redisGet_expire, redisGet_set_self]

/-- A token passing every gate check verifies to its subject. -/
lemma gateVerify_ok (tok : Token) (now : Int) (email : String)
    (hkey : tok.signKey = SECRET_KEY) (hexp : ¬ tok.claims.exp < now)
    (hscope : tok.claims.scope = some "access_token")
    (hsub : tok.claims.sub = some (.str email)) :
    gateVerify tok now = .ok email := by
  simp [gateVerify, jwtDecode, hkey, hexp, hscope, hsub]

/-! Claim C1. -/

/-- C1 counterexample: the cache key the gate writes is "user:" + email,
not "identity:" + email.  After a cache-miss resolve for
bob@example.com (store holds identity id=7), a cache get on
"identity:bob@example.com" still returns a miss, while the entry
actually written lives under "user:bob@example.com". -/
theorem C1_counterexample :
    (get_current_user (create_access_token { sub := some (.str "bob@example.com"), scope := none } none 0) 0
        { cache := [], store := [{ id := 7, email := "bob@example.com", confirmed := true, refresh_token := none }] }).1
      = .ok { id := 7, email := "bob@example.com", confirmed := true, refresh_token := none } ∧
    redisGet
        (get_current_user (create_access_token { sub := some (.str "bob@example.com"), scope := none } none 0) 0
          { cache := [], store := [{ id := 7, email := "bob@example.com", confirmed := true, refresh_token := none }] }).2.1.cache
        ("identity:" ++ "bob@example.com") = none ∧
    redisGet
        (get_current_user (create_access_token { sub := some (.str "bob@example.com"), scope := none } none 0) 0
          { cache := [], store := [{ id := 7, email := "bob@example.com", confirmed := true, refresh_token := none }] }).2.1.cache
        ("user:" ++ "bob@example.com")
      = some { id := 7, email := "bob@example.com", confirmed := true, refresh_token := none } := by
  decide

/-- C1 (amended): the identity-cache entry written and read by the gate
uses the key "user:" + email; after a resolve that missed the cache for
email e and found the identity in the store, a cache get on
"user:" + e returns a hit with that identity, and no other key's entry
(in particular "identity:" + e) is affected. -/
theorem C1_cache_key (tok : Token) (now : Int) (st : AuthState) (email : String) (u : User)
    (hv : gateVerify tok now = .ok email)
    (hmiss : redisGet st.cache ("user:" ++ email) = none)
    (hstore : get_user_by_email email st.store = some u) :
    (get_current_user tok now st).1 = .ok u ∧
    redisGet (get_current_user tok now st).2.1.cache ("user:" ++ email) = some u ∧
    (∀ k, k ≠ "user:" ++ email →
      redisGet (get_current_user tok now st).2.1.cache k = redisGet st.cache k) := by
  have hrun : get_current_user tok now st
      = (.ok u,
         { st with cache := redisExpire (redisSet st.cache ("user:" ++ email) u) ("user:" ++ email) 900 },
         1) := by
    simp only [get_current_user, hv, hmiss, hstore]
  rw [hrun]
  refine ⟨rfl, ?_, ?_⟩
  · exact redisGet_after_populate _ _ _ _
  · intro k hk
    rw [redisGet_expire, redisGet_set_ne _ _ _ _ hk]

/-- C1 witness: the amended key property at the concrete bob scenario. -/
theorem C1_cache_key_witness :
    (get_current_user (create_access_token { sub := some (.str "bob@example.com"), scope := none } none 0) 0
        { cache := [], store := [{ id := 7, email := "bob@example.com", confirmed := true, refresh_token := none }] }).1
      = .ok { id := 7, email := "bob@example.com", confirmed := true, refresh_token := none } :=
  (C1_cache_key _ 0 _ "bob@example.com"
      { id := 7, email := "bob@example.com", confirmed := true, refresh_token := none }
      (by decide) (by decide) (by decide)).1

/-! Claim C2. -/

/-- C2 counterexample: a validly signed, unexpired token of scope
"access_token" presented to decode_refresh_token is rejected with
401 "Invalid scope for token" — a message distinct from the generic
"Could not validate credentials", leaking that the scope check failed —
and a bad-signature token presented to get_email_from_token is rejected
with HTTP 422, not 401. -/
theorem C2_counterexample :
    decode_refresh_token
        { claims := { sub := some (.str "alice@example.com"), scope := some "access_token", iat := 0, exp := 1000 },
          signKey := SECRET_KEY } 0
      = .error (.http { status_code := 401, detail := "Invalid scope for token" }) ∧
    "Invalid scope for token" ≠ "Could not validate credentials" ∧
    get_email_from_token
        { claims := { sub := some (.str "alice@example.com"), scope := none, iat := 0, exp := 1000 },
          signKey := "wrong-key" } 0
      = .error (.http { status_code := 422, detail := "Invalid token for email verification" }) ∧
    (422 : Nat) ≠ 401 := by
  decide

/-- C2 (amended): get_current_user surfaces every verification failure as
the generic 401 "Could not validate credentials"; decode_refresh_token
surfaces signature/expiry failures the same way but reports a scope
mismatch as 401 "Invalid scope for token"; get_email_from_token
surfaces its failures as 422 "Invalid token for email verification". -/
theorem C2_error_masking (tok : Token) (now : Int) (e : HTTPErr) :
    (gateVerify tok now = .error (.http e) → e = credentials_exception) ∧
    (decode_refresh_token tok now = .error (.http e) →
      e = credentials_exception ∨
        e = { status_code := 401, detail := "Invalid scope for token" }) ∧
    (get_email_from_token tok now = .error (.http e) →
      e = { status_code := 422, detail := "Invalid token for email verification" }) := by
  refine ⟨?_, ?_, ?_⟩
  · intro h
    unfold gateVerify at h
    repeat' split at h
    all_goals simp_all [credentials_exception]
  · intro h
    unfold decode_refresh_token at h
    repeat' split at h
    all_goals simp_all [credentials_exception]
  · intro h
    unfold get_email_from_token at h
    repeat' split at h
    all_goals simp_all

/-- C2 witness: the amended masking property applied to a concrete
bad-signature refresh verification. -/
theorem C2_error_masking_witness :
    credentials_exception = credentials_exception ∨
      credentials_exception = { status_code := 401, detail := "Invalid scope for token" } :=
  (C2_error_masking
      { claims := { sub := none, scope := none, iat := 0, exp := 1000 }, signKey := "wrong-key" }
      0 credentials_exception).2.1 (by decide)

/-! Claim C3. -/

/-- C3 (code bug): a validly signed, unexpired token of scope
"access_token" whose claims carry no subject key at all makes
get_current_user raise KeyError "sub" — an unhandled exception — rather
than the 401 Unauthenticated outcome the spec prescribes. -/
theorem C3_missing_sub_keyerror :
    get_current_user
        { claims := { sub := none, scope := some "access_token", iat := 0, exp := 1000 },
          signKey := SECRET_KEY } 0 { cache := [], store := [] }
      = (.error (.keyError "sub"), { cache := [], store := [] }, 0) ∧
    PyError.keyError "sub" ≠ .http credentials_exception := by
  decide

/-! Claim C4. -/

/-- C4: scope isolation — a validly signed, unexpired token of scope
"refresh_token" is rejected by the access gate with the generic 401,
and one of scope "access_token" is rejected by refresh verification
with the scope-mismatch 401; neither path returns an identity for a
token of the other scope. -/
theorem C4_scope_isolation (tok : Token) (now : Int) (st : AuthState)
    (hkey : tok.signKey = SECRET_KEY) (hexp : ¬ tok.claims.exp < now) :
    (tok.claims.scope = some "refresh_token" →
      get_current_user tok now st = (.error (.http credentials_exception), st, 0)) ∧
    (tok.claims.scope = some "access_token" →
      decode_refresh_token tok now
        = .error (.http { status_code := 401, detail := "Invalid scope for token" })) := by
  constructor
  · intro hs
    simp [get_current_user, gateVerify, jwtDecode, hkey, hexp, hs]
  · intro hs
    simp [decode_refresh_token, jwtDecode, hkey, hexp, hs]

/-- C4 witness: a freshly issued refresh token is rejected by the access
gate, and a freshly issued access token is rejected by refresh
verification with the scope-mismatch error. -/
theorem C4_scope_isolation_witness :
    get_current_user (create_refresh_token { sub := some (.str "a@b"), scope := none } none 0) 0
        { cache := [], store := [] }
      = (.error (.http credentials_exception), { cache := [], store := [] }, 0) ∧
    decode_refresh_token (create_access_token { sub := some (.str "a@b"), scope := none } none 0) 0
      = .error (.http { status_code := 401, detail := "Invalid scope for token" }) :=
  ⟨(C4_scope_isolation _ 0 { cache := [], store := [] } (by decide) (by decide)).1 (by decide),
   (C4_scope_isolation _ 0 { cache := [], store := [] } (by decide) (by decide)).2 (by decide)⟩

/-! Claim C5. -/

/-- C5: round-trip — a token created by create_access_token with subject
equal to an identity key, verified by the gate's access-scope
verification before its expiry time, yields back exactly that key. -/
theorem C5_roundtrip (email : String) (ds : Option String) (delta : Option Int) (t0 now : Int)
    (hexp : ¬ (create_access_token { sub := some (.str email), scope := ds } delta t0).claims.exp < now) :
    gateVerify (create_access_token { sub := some (.str email), scope := ds } delta t0) now
      = .ok email :=
  gateVerify_ok _ _ _ rfl hexp rfl rfl

/-- C5 witness: issue for alice@example.com with default TTL at time 0,
verify immediately — the same key comes back. -/
theorem C5_roundtrip_witness :
    gateVerify (create_access_token { sub := some (.str "alice@example.com"), scope := none } none 0) 0
      = .ok "alice@example.com" :=
  C5_roundtrip "alice@example.com" none none 0 0 (by decide)

/-! Claim C6. -/

/-- C6: the gate's cache protocol — on a hit it returns the cached
identity with no store lookup and an unchanged state; on a miss it
performs exactly one store lookup, raises the generic 401 when the
store has no identity, and otherwise returns the identity after writing
it under the key with TTL 900; every call performs at most one store
lookup, and a second resolve right after a successful one performs
none. -/
theorem C6_cache_protocol (tok : Token) (now : Int) (st : AuthState) (email : String)
    (hv : gateVerify tok now = .ok email) :
    (∀ u, redisGet st.cache ("user:" ++ email) = some u →
        get_current_user tok now st = (.ok u, st, 0)) ∧
    (redisGet st.cache ("user:" ++ email) = none →
      (get_user_by_email email st.store = none →
          get_current_user tok now st = (.error (.http credentials_exception), st, 1)) ∧
      (∀ u, get_user_by_email email st.store = some u →
          (get_current_user tok now st).1 = .ok u ∧
          (get_current_user tok now st).2.2 = 1 ∧
          redisTTL (get_current_user tok now st).2.1.cache ("user:" ++ email)
            = some (some 900))) ∧
    (get_current_user tok now st).2.2 ≤ 1 ∧
    (∀ u st2 n, get_current_user tok now st = (.ok u, st2, n) →
        (get_current_user tok now st2).2.2 = 0) := by
  refine ⟨?_, ?_, ?_, ?_⟩
  · intro u hu
    simp [get_current_user, hv, hu]
  · intro hm
    constructor
    · intro hn
      simp [get_current_user, hv, hm, hn]
    · intro u hu
      simp [get_current_user, hv, hm, hu, redisTTL_expire_set_self]
  · rcases hc : redisGet st.cache ("user:" ++ email) with _ | u
    · rcases hs : get_user_by_email email st.store with _ | u
      · simp [get_current_user, hv, hc, hs]
      · simp [get_current_user, hv, hc, hs]
    · simp [get_current_user, hv, hc]
  · intro u st2 n heq
    rcases hc : redisGet st.cache ("user:" ++ email) with _ | w
    · rcases hs : get_user_by_email email st.store with _ | w
      · simp [get_current_user, hv, hc, hs] at heq
      · simp [get_current_user, hv, hc, hs] at heq
        obtain ⟨h1, h2, h3⟩ := heq
        subst h2
        simp [get_current_user, hv, redisGet_after_populate]
    · simp [get_current_user, hv, hc] at heq
      obtain ⟨h1, h2, h3⟩ := heq
      subst h2
      simp [get_current_user, hv, hc]

/-- C6 witness: a cache hit returns the cached identity with state
untouched and no store lookup. -/
theorem C6_cache_protocol_witness :
    get_current_user (create_access_token { sub := some (.str "bob@example.com"), scope := none } none 0) 0
        { cache := [{ key := "user:bob@example.com",
                      value := { id := 7, email := "bob@example.com", confirmed := true, refresh_token := none },
                      ttl := some 900 }],
          store := [] }
      = (.ok { id := 7, email := "bob@example.com", confirmed := true, refresh_token := none },
         { cache := [{ key := "user:bob@example.com",
                       value := { id := 7, email := "bob@example.com", confirmed := true, refresh_token := none },
                       ttl := some 900 }],
           store := [] }, 0) :=
  (C6_cache_protocol _ 0 _ "bob@example.com" (by decide)).1 _ (by decide)

/-! Claim C7. -/

/-- C7 counterexample: an override of 0 seconds is given, yet the expiry
claim is 900 (the 15-minute default measured from issuance 0), not
issuance + 0: Python's truthiness test on the override drops a zero
override. -/
theorem C7_counterexample :
    (create_access_token { sub := some (.str "a@b"), scope := none } (some 0) 0).claims.exp = 900 ∧
    (900 : Int) ≠ 0 + 0 := by
  decide

/-- C7 (amended): with no override or a zero override, create_access_token
expires 15 minutes after issuance and create_refresh_token 7 days
after; with a nonzero override, each expires at issuance plus the
override in seconds. -/
theorem C7_expiry_defaults (data : TokenData) (now : Int) :
    (create_access_token data none now).claims.exp = now + 15 * 60 ∧
    (create_refresh_token data none now).claims.exp = now + 7 * 86400 ∧
    (create_access_token data (some 0) now).claims.exp = now + 15 * 60 ∧
    (create_refresh_token data (some 0) now).claims.exp = now + 7 * 86400 ∧
    (∀ d : Int, d ≠ 0 →
      (create_access_token data (some d) now).claims.exp = now + d ∧
      (create_refresh_token data (some d) now).claims.exp = now + d) := by
  refine ⟨rfl, rfl, by simp [create_access_token], by simp [create_refresh_token], ?_⟩
  intro d hd
  constructor
  · simp [create_access_token, hd]
  · simp [create_refresh_token, hd]

/-- C7 witness: a nonzero override of 30 seconds at issuance time 100
yields expiry 130 for both creators. -/
theorem C7_expiry_defaults_witness :
    (create_access_token { sub := some (.str "a@b"), scope := none } (some 30) 100).claims.exp
        = 100 + 30 ∧
    (create_refresh_token { sub := some (.str "a@b"), scope := none } (some 30) 100).claims.exp
        = 100 + 30 :=
  (C7_expiry_defaults { sub := some (.str "a@b"), scope := none } 100).2.2.2.2 30 (by decide)

/-! Claim C8. -/

/-- C8: create_email_token adds no scope claim (the token's scope is
whatever the input data carried, hence none for the subject-only data
its callers pass), and get_email_from_token accepts every validly
signed, unexpired token carrying a subject — whatever its scope claim,
including "access_token" or "refresh_token" — returning that subject. -/
theorem C8_email_token_scopeless (data : TokenData) (now : Int) (tok : Token) (v : JVal)
    (hd : data.scope = none)
    (hkey : tok.signKey = SECRET_KEY) (hexp : ¬ tok.claims.exp < now)
    (hsub : tok.claims.sub = some v) :
    (create_email_token data now).claims.scope = none ∧
    get_email_from_token tok now = .ok v := by
  constructor
  · simp [create_email_token, hd]
  · simp [get_email_from_token, jwtDecode, hkey, hexp, hsub]

/-- C8 witness: a freshly issued access-scope token is accepted by
get_email_from_token, which returns its subject. -/
theorem C8_email_token_scopeless_witness :
    (create_email_token { sub := some (.str "x@y"), scope := none } 0).claims.scope = none ∧
    get_email_from_token (create_access_token { sub := some (.str "x@y"), scope := none } none 0) 0
      = .ok (.str "x@y") :=
  C8_email_token_scopeless { sub := some (.str "x@y"), scope := none } 0
    (create_access_token { sub := some (.str "x@y"), scope := none } none 0) (.str "x@y")
    (by decide) (by decide) (by decide) (by decide)

/-! Claim C9. -/

/-- C9: decode_refresh_token is stateless and side-effect-free — run
against any ambient cache/store state it leaves the state untouched,
its outcome is the same over any two states, it is unaffected by
arbitrary rewrites of every identity's persisted refresh-token value,
and acceptance is decided by signature, expiry, scope and subject
presence alone. -/
theorem C9_stateless (tok : Token) (now : Int) (st st2 : AuthState) :
    (decode_refresh_token_run tok now st).2 = st ∧
    (decode_refresh_token_run tok now st).1 = (decode_refresh_token_run tok now st2).1 ∧
    (∀ f : User → Option String,
      (decode_refresh_token_run tok now
          { st with store := st.store.map (fun u => { u with refresh_token := f u }) }).1
        = (decode_refresh_token_run tok now st).1) ∧
    isOkE (decode_refresh_token tok now)
      = (decide (tok.signKey = SECRET_KEY) && !(decide (tok.claims.exp < now)) &&
         decide (tok.claims.scope = some "refresh_token") && tok.claims.sub.isSome) := by
  refine ⟨rfl, rfl, fun f => rfl, ?_⟩
  unfold decode_refresh_token jwtDecode
  by_cases h1 : tok.signKey = SECRET_KEY
  · by_cases h2 : tok.claims.exp < now
    · simp [h1, h2, isOkE]
    · rcases h3 : tok.claims.scope with _ | sc
      · simp [h1, h2, h3, isOkE]
      · by_cases h4 : sc = "refresh_token"
        · rcases h5 : tok.claims.sub with _ | v
          · simp [h1, h2, h3, h4, h5, isOkE]
          · simp [h1, h2, h3, h4, h5, isOkE]
        · simp [h1, h2, h3, h4, isOkE]
  · simp [h1, isOkE]

/-! Claim C10. -/

/-- C10: for an email with no matching user in the store, confirmed_email
dereferences the None returned by get_user_by_email and so raises an
AttributeError instead of returning normally or raising a clean
not-found or unauthenticated error. -/
theorem C10_confirmed_email_none_deref (email : String) (store : List User)
    (h : get_user_by_email email store = none) :
    confirmed_email email store
      = .error (.attributeError "NoneType object has no attribute confirmed") ∧
    (∀ e : HTTPErr, confirmed_email email store ≠ .error (.http e)) ∧
    (∀ st2 : List User, confirmed_email email store ≠ .ok st2) := by
  refine ⟨by simp [confirmed_email, h], ?_, ?_⟩
  · intro e
    simp [confirmed_email, h]
  · intro st2
    simp [confirmed_email, h]

/-- C10 witness: confirming an email over an empty store raises the
AttributeError outcome. -/
theorem C10_confirmed_email_none_deref_witness :
    confirmed_email "ghost@example.com" []
      = .error (.attributeError "NoneType object has no attribute confirmed") :=
  (C10_confirmed_email_none_deref "ghost@example.com" [] (by decide)).1

end AuthApp
